import Mathlib

/-!
# captions: the miniaudio capture helper (`src/captions/ma_helper.c`)

A shallow embedding of the C helper that wraps miniaudio for the captions
program, and the properties of its device lookup and session lifecycle.

Conventions of the embedding

* A `char*` is the list of the `char` objects found at the pointer.  The C
  string it designates ends at the first NUL, or at the end of the list (the
  list is implicitly followed by a NUL): `c_str`.
* The backend (miniaudio) is not part of the helper.  What each backend call
  answers is an input (`Backend`), and every backend call the helper makes is
  recorded, in order, in a list of `BackendCall`.
* A `MaCapture*` is a `MaCapturePtr`: NULL, a live heap object, or storage
  that was handed to `free`.  An operation that would access freed storage has
  no defined behaviour and yields `none`.
-/

namespace MaHelper

/-! ## C strings and the two libc routines the helper calls -/

/-- The terminating NUL character of a C string. -/
def NUL : Char := Char.ofNat 0

/-- The C string found at a `char*`: the characters before the first NUL. -/
def c_str (p : List Char) : List Char :=
  p.takeWhile (fun c => c != NUL)

/-- The character `p[i]`; past the listed characters the implicit NUL. -/
def c_at (p : List Char) (i : Nat) : Char :=
  p.getD i NUL

/-- Search of `needle` in the string `h` from its start, `off` being the offset
of `h` in the original haystack: the offset of the first occurrence. -/
def strstr_from (needle : List Char) : List Char → Nat → Option Nat
  | [], off => if needle = [] then some off else none
  | c :: t, off =>
      if needle <+: c :: t then some off else strstr_from needle t (off + 1)

/-- The libc `strstr(haystack, needle)`: the offset in `haystack` of the first
occurrence of the string `needle`, `none` for the NULL result.  An empty
`needle` is found at offset 0. -/
def strstr (haystack needle : List Char) : Option Nat :=
  strstr_from (c_str needle) (c_str haystack) 0

/-- The libc `strncpy(dst, src, n)`: the first `n` characters of `dst` become
the string at `src` cut to at most `n` characters and padded with NULs up to
`n` characters; the rest of `dst` is kept. -/
def strncpy (dst src : List Char) (n : Nat) : List Char :=
  (c_str src).take n ++ List.replicate (n - ((c_str src).take n).length) NUL
    ++ dst.drop n

/-! ## The backend boundary -/

/-- Modelled from the spec: `ma_result` of miniaudio.h, which is not among
the sources.  Every backend call answers success or failure; the helper only
compares the answer with `MA_SUCCESS`. -/
abbrev ma_result := Int

/-- Modelled from the spec: the success value of `ma_result` (miniaudio.h is
not among the sources); any other value is a failure. -/
def MA_SUCCESS : ma_result := 0

/-- The backend identifier of a device (`ma_device_id`), opaque to the helper. -/
abbrev ma_device_id := Nat

/-- The two fields of `ma_device_info` the helper reads: the name buffer and the
identifier. -/
structure ma_device_info where
  name : List Char
  id : ma_device_id
  deriving DecidableEq, Repr

/-- The sample formats the helper names. -/
inductive ma_format
  | ma_format_f32
  deriving DecidableEq, Repr

/-- The fields of `ma_device_config` that `ma_capture_start` fills in.
`pDeviceID` is `none` for the NULL pointer (the default device) and the
identifier pointed to otherwise.  `dataCallback` and `pUserData` are always
`data_callback` and the session itself. -/
structure ma_device_config where
  pDeviceID : Option ma_device_id
  format : ma_format
  channels : Nat
  sampleRate : Nat
  deriving DecidableEq, Repr

/-- A call of the helper into the backend. -/
inductive BackendCall
  | ma_context_init
  | ma_context_get_devices
  | ma_device_init (config : ma_device_config)
  | ma_device_start
  | ma_device_stop
  | ma_device_uninit
  | ma_context_uninit
  deriving DecidableEq, Repr

/-- What the backend answers during one call of the helper: the result of
each backend call the helper may make, and the capture devices it lists
(`capture_infos`, whose length is `capture_count`). -/
structure Backend where
  context_init : ma_result
  get_devices : ma_result
  capture_infos : List ma_device_info
  device_init : ma_result
  device_start : ma_result
  deriving DecidableEq, Repr

/-! ## The session object -/

/-- The struct `MaCapture`.  The backend structs `context` and `device` are
owned and filled by the backend and are not inspected by the helper; the
function pointer `callback` and the pointer `userdata` are kept as addresses. -/
structure MaCapture where
  callback : Nat
  userdata : Nat
  context_initialized : Int
  device_initialized : Int
  deriving DecidableEq, Repr

/-- What a `MaCapture*` held by the caller designates. -/
inductive MaCapturePtr
  | NULL
  | live (obj : MaCapture)
  | freed
  deriving DecidableEq, Repr

/-- The conversion `(ma_uint32)x` of an `int`. -/
def to_ma_uint32 (x : Int) : Nat :=
  (x % 2 ^ 32).toNat

/-- The conversion `(size_t)x` of an `int`, for a 64-bit `size_t`. -/
def to_size_t (x : Int) : Nat :=
  (x % 2 ^ 64).toNat

/-- The helper `ma_capture_new`: `calloc(1, sizeof(MaCapture))`, a zeroed
object, or NULL when the allocation fails. -/
def ma_capture_new (calloc_ok : Bool) : MaCapturePtr :=
  if calloc_ok then
    .live { callback := 0, userdata := 0, context_initialized := 0, device_initialized := 0 }
  else .NULL

/-- The helper `ma_capture_free`: the pointer after the call and the backend
calls made. -/
def ma_capture_free (cap : MaCapturePtr) : Option (MaCapturePtr × List BackendCall) :=
  match cap with
  | .freed => none
  | .NULL => some (.NULL, [])
  | .live c =>
    let t1 := if c.device_initialized ≠ 0 then [BackendCall.ma_device_uninit] else []
    let t2 := if c.context_initialized ≠ 0 then [BackendCall.ma_context_uninit] else []
    some (.freed, t1 ++ t2)

/-- The loop of `find_device_by_name` from index `i` on. -/
def find_device_by_name_loop (capture_infos : List ma_device_info)
    (name_substr : List Char) (out_id : Option ma_device_id) (i : Nat) :
    Int × Option ma_device_id :=
  if h : i < capture_infos.length then
    if strstr (capture_infos[i]).name name_substr ≠ none then
      (0, some (capture_infos[i]).id)
    else find_device_by_name_loop capture_infos name_substr out_id (i + 1)
  else (-1, out_id)
termination_by capture_infos.length - i

/-- The helper `find_device_by_name`.  `get_devices` and `capture_infos` are
what `ma_context_get_devices` answers; `out_id` is the content of the cell
`*out_id` at the call, `none` when it is indeterminate.  The result is the
return value, the content of the cell afterwards, and the backend calls made. -/
def find_device_by_name (get_devices : ma_result) (capture_infos : List ma_device_info)
    (name_substr : List Char) (out_id : Option ma_device_id) :
    Int × Option ma_device_id × List BackendCall :=
  if get_devices ≠ MA_SUCCESS then (-1, out_id, [.ma_context_get_devices])
  else
    let r := find_device_by_name_loop capture_infos name_substr out_id 0
    (r.1, r.2, [.ma_context_get_devices])

/-- The second half of `ma_capture_start`, from the line
`ma_device_config config = ...` on: `c2` is the session object, `p_device_id`
the identifier to request (`none` for NULL) and `t1` the backend calls made so
far. -/
def ma_capture_start_device (b : Backend) (c2 : MaCapture) (p_device_id : Option ma_device_id)
    (t1 : List BackendCall) (sample_rate channels : Int) :
    Option (Int × MaCapturePtr × List BackendCall) :=
  let config : ma_device_config :=
    { pDeviceID := p_device_id
      format := .ma_format_f32
      channels := to_ma_uint32 channels
      sampleRate := to_ma_uint32 sample_rate }
  if b.device_init ≠ MA_SUCCESS then
    some (-3, .live c2, t1 ++ [.ma_device_init config])
  else
    let c3 := { c2 with device_initialized := 1 }
    if b.device_start ≠ MA_SUCCESS then
      some (-4, .live c3, t1 ++ [.ma_device_init config, .ma_device_start])
    else
      some (0, .live c3, t1 ++ [.ma_device_init config, .ma_device_start])

/-- The helper `ma_capture_start`: the return value, the pointer after the call
and the backend calls made.  `device_name` is `none` for NULL.  The local
`device_id` is indeterminate until `find_device_by_name` writes it, and
`p_device_id` is NULL or points to it. -/
def ma_capture_start (b : Backend) (cap : MaCapturePtr) (device_name : Option (List Char))
    (sample_rate channels : Int) (callback userdata : Nat) :
    Option (Int × MaCapturePtr × List BackendCall) :=
  match cap with
  | .freed => none
  | .NULL => some (-1, .NULL, [])
  | .live c0 =>
    let c1 := { c0 with callback := callback, userdata := userdata }
    if b.context_init ≠ MA_SUCCESS then
      some (-1, .live c1, [.ma_context_init])
    else
      let c2 := { c1 with context_initialized := 1 }
      let device_id : Option ma_device_id := none
      match device_name with
      | none =>
          ma_capture_start_device b c2 none [.ma_context_init] sample_rate channels
      | some p =>
          if c_at p 0 ≠ NUL then
            let found := find_device_by_name b.get_devices b.capture_infos p device_id
            if found.1 = 0 then
              ma_capture_start_device b c2 found.2.1 ([.ma_context_init] ++ found.2.2)
                sample_rate channels
            else
              some (-2, .live c2, [.ma_context_init] ++ found.2.2)
          else
            ma_capture_start_device b c2 none [.ma_context_init] sample_rate channels

/-- The helper `ma_capture_stop`: the pointer after the call and the backend
calls made. -/
def ma_capture_stop (cap : MaCapturePtr) : Option (MaCapturePtr × List BackendCall) :=
  match cap with
  | .freed => none
  | .NULL => some (.NULL, [])
  | .live c =>
    if c.device_initialized = 0 then some (.live c, [])
    else some (.live c, [.ma_device_stop])

/-- The loop of `ma_find_monitor_source` from index `i` on: the return value
and the content of the buffer `out_name` afterwards. -/
def ma_find_monitor_source_loop (capture_infos : List ma_device_info)
    (out_name : List Char) (max_len : Int) (i : Nat) : Int × List Char :=
  if h : i < capture_infos.length then
    if strstr (capture_infos[i]).name "monitor".toList ≠ none ∨
        strstr (capture_infos[i]).name "Monitor".toList ≠ none then
      let copied := strncpy out_name (capture_infos[i]).name (to_size_t (max_len - 1))
      (0, copied.set (max_len - 1).toNat NUL)
    else ma_find_monitor_source_loop capture_infos out_name max_len (i + 1)
  else (-1, out_name)
termination_by capture_infos.length - i

/-- The helper `ma_find_monitor_source`.  `context_init`, `get_devices` and
`capture_infos` are what the backend answers; `out_name` is the content of the
caller's buffer at the call.  The result is the return value, the content of
the buffer afterwards, and the backend calls made. -/
def ma_find_monitor_source (context_init get_devices : ma_result)
    (capture_infos : List ma_device_info) (out_name : List Char) (max_len : Int) :
    Int × List Char × List BackendCall :=
  if context_init ≠ MA_SUCCESS then (-1, out_name, [.ma_context_init])
  else if get_devices ≠ MA_SUCCESS then
    (-1, out_name, [.ma_context_init, .ma_context_get_devices, .ma_context_uninit])
  else
    let r := ma_find_monitor_source_loop capture_infos out_name max_len 0
    (r.1, r.2, [.ma_context_init, .ma_context_get_devices, .ma_context_uninit])

/-! ## Sequences of calls on one session -/

/-- One call of the caller on its session: a `ma_capture_start` with its
arguments and with what the backend answers during it, or a `ma_capture_stop`. -/
inductive Call
  | start (b : Backend) (device_name : Option (List Char)) (sample_rate channels : Int)
      (callback userdata : Nat)
  | stop

/-- The pointer and the backend calls of one `Call`. -/
def step (cap : MaCapturePtr) : Call → Option (MaCapturePtr × List BackendCall)
  | .start b device_name sample_rate channels callback userdata =>
      (ma_capture_start b cap device_name sample_rate channels callback userdata).map
        (fun r => r.2)
  | .stop => ma_capture_stop cap

/-- The calls of `calls` made one after the other on the session `cap`: the
pointer at the end and all backend calls made, in order. -/
def run (cap : MaCapturePtr) : List Call → Option (MaCapturePtr × List BackendCall)
  | [] => some (cap, [])
  | k :: rest =>
      match step cap k with
      | none => none
      | some (cap1, t1) =>
          match run cap1 rest with
          | none => none
          | some (cap2, t2) => some (cap2, t1 ++ t2)

/-! ## Abbreviations and sample data -/

/-- The test of `ma_find_monitor_source` on a device name. -/
def monitor_test (name : List Char) : Prop :=
  strstr name "monitor".toList ≠ none ∨ strstr name "Monitor".toList ≠ none

instance (name : List Char) : Decidable (monitor_test name) := by
  unfold monitor_test
  exact inferInstance

/-- The zeroed session object of `ma_capture_new`. -/
def fresh_session : MaCapture :=
  { callback := 0, userdata := 0, context_initialized := 0, device_initialized := 0 }

/-- A backend on which everything succeeds but which lists no device. -/
def backend_no_device : Backend :=
  { context_init := MA_SUCCESS, get_devices := MA_SUCCESS, capture_infos := [],
    device_init := MA_SUCCESS, device_start := MA_SUCCESS }

/-- A backend on which everything succeeds and which lists one microphone. -/
def backend_ok : Backend :=
  { context_init := MA_SUCCESS, get_devices := MA_SUCCESS,
    capture_infos := [ma_device_info.mk "Built-in Mic".toList 4],
    device_init := MA_SUCCESS, device_start := MA_SUCCESS }

/-- The session object after a successful start of the default device on a
fresh session with callback address 1 and userdata address 2. -/
def started_session : MaCapture :=
  { callback := 1, userdata := 2, context_initialized := 1, device_initialized := 1 }

/-- A microphone followed by a monitor source. -/
def mic_and_monitor : List ma_device_info :=
  [ma_device_info.mk "Built-in Mic".toList 4, ma_device_info.mk "Monitor of Speakers".toList 7]

/-! ## Strings: what `strstr` finds -/

theorem strstr_from_ne_none_iff (needle : List Char) :
    ∀ (h : List Char) (off : Nat), strstr_from needle h off ≠ none ↔ needle <:+: h := by
  intro h
  induction h with
  | nil =>
    intro off
    by_cases hn : needle = []
    · simp [strstr_from, hn]
    · simp [strstr_from, hn]
  | cons c t ih =>
    intro off
    rw [List.infix_cons_iff]
    by_cases hp : needle <+: c :: t
    · simp [strstr_from, hp]
    · simp only [strstr_from, hp, if_false, false_or]
      exact ih (off + 1)

theorem strstr_ne_none_iff (haystack needle : List Char) :
    strstr haystack needle ≠ none ↔ c_str needle <:+: c_str haystack := by
  unfold strstr
  exact strstr_from_ne_none_iff _ _ _

/-! ## The lookup loop -/

theorem find_device_by_name_loop_none (capture_infos : List ma_device_info)
    (name_substr : List Char) (out_id : Option ma_device_id) :
    ∀ (n i : Nat), capture_infos.length - i = n →
      (∀ j (hj : j < capture_infos.length), i ≤ j →
        ¬ c_str name_substr <:+: c_str (capture_infos[j]).name) →
      find_device_by_name_loop capture_infos name_substr out_id i = (-1, out_id) := by
  intro n
  induction n with
  | zero =>
    intro i hn _
    rw [find_device_by_name_loop]
    have hi : ¬ i < capture_infos.length := by omega
    simp [hi]
  | succ n ih =>
    intro i hn hall
    rw [find_device_by_name_loop]
    have hi : i < capture_infos.length := by omega
    have hno : ¬ strstr (capture_infos[i]).name name_substr ≠ none := by
      rw [strstr_ne_none_iff]
      exact hall i hi (Nat.le_refl i)
    simp only [hi, dite_true]
    rw [if_neg hno]
    exact ih (i + 1) (by omega) (fun j hj hij => hall j hj (by omega))

theorem find_device_by_name_loop_first (capture_infos : List ma_device_info)
    (name_substr : List Char) (out_id : Option ma_device_id)
    (k : Nat) (hk : k < capture_infos.length)
    (hit : c_str name_substr <:+: c_str (capture_infos[k]).name) :
    ∀ (n i : Nat), k - i = n → i ≤ k →
      (∀ j (hj : j < capture_infos.length), i ≤ j → j < k →
        ¬ c_str name_substr <:+: c_str (capture_infos[j]).name) →
      find_device_by_name_loop capture_infos name_substr out_id i
        = (0, some (capture_infos[k]).id) := by
  intro n
  induction n with
  | zero =>
    intro i hn hik _
    have hi : i = k := by omega
    subst hi
    rw [find_device_by_name_loop]
    have hyes : strstr (capture_infos[i]).name name_substr ≠ none :=
      (strstr_ne_none_iff _ _).mpr hit
    simp only [hk, dite_true]
    exact if_pos hyes
  | succ n ih =>
    intro i hn hik hall
    have hi : i < capture_infos.length := by omega
    rw [find_device_by_name_loop]
    have hno : ¬ strstr (capture_infos[i]).name name_substr ≠ none := by
      rw [strstr_ne_none_iff]
      exact hall i hi (Nat.le_refl i) (by omega)
    simp only [hi, dite_true]
    rw [if_neg hno]
    exact ih (i + 1) (by omega) (by omega) (fun j hj hij hjk => hall j hj (by omega) hjk)

/-- Among the devices of a list, one whose name contains the fragment has a
first one. -/
theorem exists_first_match (capture_infos : List ma_device_info) (name_substr : List Char)
    (hex : ∃ d ∈ capture_infos, c_str name_substr <:+: c_str d.name) :
    ∃ (k : Nat) (hk : k < capture_infos.length),
      c_str name_substr <:+: c_str (capture_infos[k]).name ∧
      ∀ j (hj : j < capture_infos.length), j < k →
        ¬ c_str name_substr <:+: c_str (capture_infos[j]).name := by
  classical
  have hex2 : ∃ k, ∃ hk : k < capture_infos.length,
      c_str name_substr <:+: c_str (capture_infos[k]).name := by
    obtain ⟨d, hd, hin⟩ := hex
    obtain ⟨k, hk, rfl⟩ := List.mem_iff_getElem.mp hd
    exact ⟨k, hk, hin⟩
  refine ⟨Nat.find hex2, (Nat.find_spec hex2).1, (Nat.find_spec hex2).2, ?_⟩
  intro j hj hlt hin
  exact Nat.find_min hex2 hlt ⟨hj, hin⟩

/-- The outcome of `find_device_by_name` when enumeration succeeds and no
name contains the fragment. -/
theorem find_device_by_name_no_match (capture_infos : List ma_device_info)
    (name_substr : List Char) (out_id : Option ma_device_id)
    (hno : ¬ ∃ d ∈ capture_infos, c_str name_substr <:+: c_str d.name) :
    find_device_by_name MA_SUCCESS capture_infos name_substr out_id
      = (-1, out_id, [.ma_context_get_devices]) := by
  have hl := find_device_by_name_loop_none capture_infos name_substr out_id
    (capture_infos.length - 0) 0 rfl
    (fun j hj _ hin => hno ⟨capture_infos[j], List.getElem_mem _, hin⟩)
  simp [find_device_by_name, hl]

/-- The outcome of `find_device_by_name` when enumeration succeeds and `k` is
the first index whose name contains the fragment. -/
theorem find_device_by_name_first (capture_infos : List ma_device_info)
    (name_substr : List Char) (out_id : Option ma_device_id)
    (k : Nat) (hk : k < capture_infos.length)
    (hit : c_str name_substr <:+: c_str (capture_infos[k]).name)
    (hfirst : ∀ j (hj : j < capture_infos.length), j < k →
      ¬ c_str name_substr <:+: c_str (capture_infos[j]).name) :
    find_device_by_name MA_SUCCESS capture_infos name_substr out_id
      = (0, some (capture_infos[k]).id, [.ma_context_get_devices]) := by
  have hl := find_device_by_name_loop_first capture_infos name_substr out_id k hk hit
    (k - 0) 0 rfl (Nat.zero_le k) (fun j hj _ hjk => hfirst j hj hjk)
  simp [find_device_by_name, hl]

theorem find_device_by_name_enum_failed (get_devices : ma_result)
    (capture_infos : List ma_device_info) (name_substr : List Char)
    (out_id : Option ma_device_id) (hfail : get_devices ≠ MA_SUCCESS) :
    find_device_by_name get_devices capture_infos name_substr out_id
      = (-1, out_id, [.ma_context_get_devices]) := by
  simp [find_device_by_name, hfail]

/-! ## Claims on the device lookup -/

/-- C2: `find_device_by_name` returns 0 exactly when enumeration succeeds and
some device name contains the fragment as a case-sensitive substring; then the
identifier written to `out_id` is that of the first such device in enumeration
order; otherwise it returns -1 and the cell `out_id` keeps its content. -/
theorem find_device_by_name_spec (get_devices : ma_result)
    (capture_infos : List ma_device_info) (name_substr : List Char)
    (out_id : Option ma_device_id) :
    ((find_device_by_name get_devices capture_infos name_substr out_id).1 = 0 ↔
      (get_devices = MA_SUCCESS ∧
        ∃ d ∈ capture_infos, c_str name_substr <:+: c_str d.name)) ∧
    ((find_device_by_name get_devices capture_infos name_substr out_id).1 = 0 →
      ∃ (k : Nat) (hk : k < capture_infos.length),
        c_str name_substr <:+: c_str (capture_infos[k]).name ∧
        (∀ j (hj : j < capture_infos.length), j < k →
          ¬ c_str name_substr <:+: c_str (capture_infos[j]).name) ∧
        (find_device_by_name get_devices capture_infos name_substr out_id).2.1
          = some (capture_infos[k]).id) ∧
    ((find_device_by_name get_devices capture_infos name_substr out_id).1 ≠ 0 →
      (find_device_by_name get_devices capture_infos name_substr out_id).1 = -1 ∧
      (find_device_by_name get_devices capture_infos name_substr out_id).2.1 = out_id) := by
  by_cases henum : get_devices = MA_SUCCESS
  · subst henum
    by_cases hex : ∃ d ∈ capture_infos, c_str name_substr <:+: c_str d.name
    · obtain ⟨k, hk, hit, hfirst⟩ := exists_first_match capture_infos name_substr hex
      rw [find_device_by_name_first capture_infos name_substr out_id k hk hit hfirst]
      refine ⟨by simp [hex], fun _ => ⟨k, hk, hit, hfirst, rfl⟩, by simp⟩
    · rw [find_device_by_name_no_match capture_infos name_substr out_id hex]
      refine ⟨by simp [hex], by simp, by simp⟩
  · rw [find_device_by_name_enum_failed get_devices capture_infos name_substr out_id henum]
    refine ⟨by simp [henum], by simp, by simp⟩

/-- C3 as stated fails: the only device is named "Monitor Source", so exactly
one name contains "Monitor Source", and the lookup of "monitor" returns -1 and
writes no identifier. -/
theorem find_device_by_name_monitor_case_sensitive :
    (∃ (k : Nat) (hk : k < [ma_device_info.mk "Monitor Source".toList 7].length),
      "Monitor Source".toList <:+:
        c_str ([ma_device_info.mk "Monitor Source".toList 7][k]).name ∧
      ∀ j (hj : j < [ma_device_info.mk "Monitor Source".toList 7].length),
        "Monitor Source".toList <:+:
          c_str ([ma_device_info.mk "Monitor Source".toList 7][j]).name → j = k) ∧
    find_device_by_name MA_SUCCESS [ma_device_info.mk "Monitor Source".toList 7]
      "monitor".toList none = (-1, none, [.ma_context_get_devices]) := by
  refine ⟨⟨0, by decide, by decide, ?_⟩, ?_⟩
  · intro j hj _
    simp only [List.length_singleton] at hj
    omega
  · apply find_device_by_name_no_match
    decide

/-- C3, amended: when enumeration succeeds and exactly one device name
contains the fragment itself as a case-sensitive substring, the lookup returns
0 and writes the identifier of that device. -/
theorem find_device_by_name_unique_match (capture_infos : List ma_device_info)
    (name_substr : List Char) (out_id : Option ma_device_id)
    (k : Nat) (hk : k < capture_infos.length)
    (hit : c_str name_substr <:+: c_str (capture_infos[k]).name)
    (huniq : ∀ j (hj : j < capture_infos.length),
      c_str name_substr <:+: c_str (capture_infos[j]).name → j = k) :
    find_device_by_name MA_SUCCESS capture_infos name_substr out_id
      = (0, some (capture_infos[k]).id, [.ma_context_get_devices]) := by
  apply find_device_by_name_first capture_infos name_substr out_id k hk hit
  intro j hj hjk hin
  have := huniq j hj hin
  omega

/-- The fragment "Monitor Source" against a microphone and one monitor source:
the identifier of the monitor source is returned. -/
theorem find_device_by_name_unique_match_witness :
    find_device_by_name MA_SUCCESS
      [ma_device_info.mk "Built-in Mic".toList 4, ma_device_info.mk "Monitor Source".toList 7]
      "Monitor Source".toList none = (0, some 7, [.ma_context_get_devices]) :=
  find_device_by_name_unique_match
    [ma_device_info.mk "Built-in Mic".toList 4, ma_device_info.mk "Monitor Source".toList 7]
    "Monitor Source".toList none 1 (by decide) (by decide)
    (by
      intro j hj hin
      match j, hj, hin with
      | 0, _, h0 =>
        have h1 : c_str "Monitor Source".toList <:+: c_str "Built-in Mic".toList := h0
        exact absurd h1 (by decide)
      | 1, _, _ => rfl)

/-! ## Claims on `ma_capture_start` -/

theorem c_at_zero_ne_NUL_iff (p : List Char) : c_at p 0 ≠ NUL ↔ c_str p ≠ [] := by
  cases p with
  | nil => simp [c_at, c_str]
  | cons a t =>
    by_cases ha : a = NUL
    · simp [c_at, c_str, List.takeWhile_cons, ha]
    · simp [c_at, c_str, List.takeWhile_cons, ha]

/-- The return value of the second half of `ma_capture_start` and the flags it
leaves. -/
theorem ma_capture_start_device_eq (b : Backend) (c2 : MaCapture)
    (p_device_id : Option ma_device_id) (t1 : List BackendCall) (sample_rate channels : Int) :
    ma_capture_start_device b c2 p_device_id t1 sample_rate channels =
      some (
        (if b.device_init ≠ MA_SUCCESS then -3
          else if b.device_start ≠ MA_SUCCESS then -4 else 0),
        .live (if b.device_init ≠ MA_SUCCESS then c2
          else { c2 with device_initialized := 1 }),
        t1 ++ [BackendCall.ma_device_init
            { pDeviceID := p_device_id, format := .ma_format_f32,
              channels := to_ma_uint32 channels, sampleRate := to_ma_uint32 sample_rate }]
          ++ (if b.device_init ≠ MA_SUCCESS then [] else [.ma_device_start])) := by
  unfold ma_capture_start_device
  by_cases h1 : b.device_init = MA_SUCCESS
  · by_cases h2 : b.device_start = MA_SUCCESS
    · simp [h1, h2]
    · simp [h1, h2]
  · simp [h1]

theorem find_device_by_name_calls (get_devices : ma_result)
    (capture_infos : List ma_device_info) (name_substr : List Char)
    (out_id : Option ma_device_id) :
    (find_device_by_name get_devices capture_infos name_substr out_id).2.2
      = [.ma_context_get_devices] := by
  unfold find_device_by_name
  split <;> rfl

theorem ma_capture_start_context_failed (b : Backend) (c : MaCapture)
    (device_name : Option (List Char)) (sample_rate channels : Int) (callback userdata : Nat)
    (hctx : b.context_init ≠ MA_SUCCESS) :
    ma_capture_start b (.live c) device_name sample_rate channels callback userdata
      = some (-1, .live { c with callback := callback, userdata := userdata },
          [.ma_context_init]) := by
  simp [ma_capture_start, hctx]

theorem ma_capture_start_default (b : Backend) (c : MaCapture)
    (device_name : Option (List Char)) (sample_rate channels : Int) (callback userdata : Nat)
    (hctx : b.context_init = MA_SUCCESS)
    (hname : device_name = none ∨ ∃ name, device_name = some name ∧ c_str name = []) :
    ma_capture_start b (.live c) device_name sample_rate channels callback userdata
      = ma_capture_start_device b
          { c with callback := callback, userdata := userdata, context_initialized := 1 }
          none [.ma_context_init] sample_rate channels := by
  rcases hname with rfl | ⟨name, rfl, hne⟩
  · simp [ma_capture_start, hctx]
  · have hat : ¬ c_at name 0 ≠ NUL := by
      rw [c_at_zero_ne_NUL_iff]
      simp [hne]
    simp only [ma_capture_start, hctx, if_neg hat]
    simp

theorem ma_capture_start_named_found (b : Backend) (c : MaCapture)
    (name : List Char) (sample_rate channels : Int) (callback userdata : Nat)
    (hctx : b.context_init = MA_SUCCESS) (hne : c_str name ≠ [])
    (hfound : (find_device_by_name b.get_devices b.capture_infos name none).1 = 0) :
    ma_capture_start b (.live c) (some name) sample_rate channels callback userdata
      = ma_capture_start_device b
          { c with callback := callback, userdata := userdata, context_initialized := 1 }
          (find_device_by_name b.get_devices b.capture_infos name none).2.1
          [.ma_context_init, .ma_context_get_devices] sample_rate channels := by
  have hat : c_at name 0 ≠ NUL := (c_at_zero_ne_NUL_iff name).mpr hne
  simp only [ma_capture_start, hctx, if_pos hat, if_pos hfound, find_device_by_name_calls]
  simp

theorem ma_capture_start_named_missing (b : Backend) (c : MaCapture)
    (name : List Char) (sample_rate channels : Int) (callback userdata : Nat)
    (hctx : b.context_init = MA_SUCCESS) (hne : c_str name ≠ [])
    (hfound : (find_device_by_name b.get_devices b.capture_infos name none).1 ≠ 0) :
    ma_capture_start b (.live c) (some name) sample_rate channels callback userdata
      = some (-2,
          .live { c with callback := callback, userdata := userdata, context_initialized := 1 },
          [.ma_context_init, .ma_context_get_devices]) := by
  have hat : c_at name 0 ≠ NUL := (c_at_zero_ne_NUL_iff name).mpr hne
  simp only [ma_capture_start, hctx, if_pos hat, if_neg hfound, find_device_by_name_calls]
  simp

/-- C1: on a live session `ma_capture_start` returns one of -1, -2, -3, -4, 0,
decided in this order: -1 exactly when context init fails, and then the
context init is the only backend call; else -2 exactly when a non-NULL,
non-empty name is given and its lookup fails; else -3 exactly when device init
fails; else -4 exactly when device start fails; else 0.  With a NULL or empty
name no lookup is made and the default device (NULL identifier) is requested.
A NULL session returns -1. -/
theorem ma_capture_start_codes (b : Backend) (c : MaCapture)
    (device_name : Option (List Char)) (sample_rate channels : Int) (callback userdata : Nat) :
    (∃ code p tr,
      ma_capture_start b (.live c) device_name sample_rate channels callback userdata
        = some (code, p, tr) ∧
      (code = -1 ∨ code = -2 ∨ code = -3 ∨ code = -4 ∨ code = 0) ∧
      (code = -1 ↔ b.context_init ≠ MA_SUCCESS) ∧
      (b.context_init ≠ MA_SUCCESS → tr = [.ma_context_init]) ∧
      (code = -2 ↔ b.context_init = MA_SUCCESS ∧
        ∃ name, device_name = some name ∧ c_str name ≠ [] ∧
          (find_device_by_name b.get_devices b.capture_infos name none).1 ≠ 0) ∧
      (code = -3 ↔ b.context_init = MA_SUCCESS ∧ code ≠ -2 ∧ b.device_init ≠ MA_SUCCESS) ∧
      (code = -4 ↔ b.context_init = MA_SUCCESS ∧ code ≠ -2 ∧ b.device_init = MA_SUCCESS ∧
        b.device_start ≠ MA_SUCCESS) ∧
      (code = 0 ↔ b.context_init = MA_SUCCESS ∧ code ≠ -2 ∧ b.device_init = MA_SUCCESS ∧
        b.device_start = MA_SUCCESS) ∧
      ((device_name = none ∨ ∃ name, device_name = some name ∧ c_str name = []) →
        code ≠ -2 ∧ BackendCall.ma_context_get_devices ∉ tr ∧
        (b.context_init = MA_SUCCESS →
          BackendCall.ma_device_init
            { pDeviceID := none, format := .ma_format_f32,
              channels := to_ma_uint32 channels, sampleRate := to_ma_uint32 sample_rate }
            ∈ tr))) ∧
    ma_capture_start b .NULL device_name sample_rate channels callback userdata
      = some (-1, .NULL, []) := by
  refine ⟨?_, rfl⟩
  by_cases hctx : b.context_init = MA_SUCCESS
  · by_cases hname : device_name = none ∨ ∃ name, device_name = some name ∧ c_str name = []
    · rw [ma_capture_start_default b c device_name sample_rate channels callback userdata
        hctx hname, ma_capture_start_device_eq]
      refine ⟨_, _, _, rfl, ?_⟩
      have hnot : ¬ ∃ name, device_name = some name ∧ c_str name ≠ [] ∧
          (find_device_by_name b.get_devices b.capture_infos name none).1 ≠ 0 := by
        rintro ⟨name, rfl, hne, _⟩
        rcases hname with h | ⟨n2, h, h2⟩
        · cases h
        · cases h
          exact hne h2
      by_cases h1 : b.device_init = MA_SUCCESS
      · by_cases h2 : b.device_start = MA_SUCCESS
        · simp [h1, h2, hctx, hnot]
        · simp [h1, h2, hctx, hnot]
      · simp [h1, hctx, hnot]
    · obtain ⟨name, rfl, hne⟩ : ∃ name, device_name = some name ∧ c_str name ≠ [] := by
        cases device_name with
        | none => exact absurd (Or.inl rfl) hname
        | some name =>
          refine ⟨name, rfl, fun h => hname (Or.inr ⟨name, rfl, h⟩)⟩
      by_cases hfound : (find_device_by_name b.get_devices b.capture_infos name none).1 = 0
      · rw [ma_capture_start_named_found b c name sample_rate channels callback userdata
          hctx hne hfound, ma_capture_start_device_eq]
        refine ⟨_, _, _, rfl, ?_⟩
        by_cases h1 : b.device_init = MA_SUCCESS
        · by_cases h2 : b.device_start = MA_SUCCESS
          · simp [h1, h2, hctx, hne, hfound]
          · simp [h1, h2, hctx, hne, hfound]
        · simp [h1, hctx, hne, hfound]
      · rw [ma_capture_start_named_missing b c name sample_rate channels callback userdata
          hctx hne hfound]
        refine ⟨_, _, _, rfl, ?_⟩
        simp [hctx, hne, hfound]
  · rw [ma_capture_start_context_failed b c device_name sample_rate channels callback userdata
      hctx]
    refine ⟨_, _, _, rfl, ?_⟩
    simp [hctx]

/-- What `ma_capture_start` leaves in a live session: the session stays live,
the return value is one of the five codes, `context_initialized` is set to 1
unless the code is -1, `device_initialized` is set to 1 exactly for the codes 0
and -4, and a flag that is not set keeps its value. -/
theorem ma_capture_start_flags (b : Backend) (c : MaCapture)
    (device_name : Option (List Char)) (sample_rate channels : Int) (callback userdata : Nat) :
    ∃ code c1 tr,
      ma_capture_start b (.live c) device_name sample_rate channels callback userdata
        = some (code, .live c1, tr) ∧
      (code = -1 ∨ code = -2 ∨ code = -3 ∨ code = -4 ∨ code = 0) ∧
      c1.context_initialized = (if code = -1 then c.context_initialized else 1) ∧
      c1.device_initialized = (if code = 0 ∨ code = -4 then 1 else c.device_initialized) := by
  by_cases hctx : b.context_init = MA_SUCCESS
  · by_cases hname : device_name = none ∨ ∃ name, device_name = some name ∧ c_str name = []
    · rw [ma_capture_start_default b c device_name sample_rate channels callback userdata
        hctx hname, ma_capture_start_device_eq]
      refine ⟨_, _, _, rfl, ?_⟩
      by_cases h1 : b.device_init = MA_SUCCESS
      · by_cases h2 : b.device_start = MA_SUCCESS
        · simp [h1, h2]
        · simp [h1, h2]
      · simp [h1]
    · obtain ⟨name, rfl, hne⟩ : ∃ name, device_name = some name ∧ c_str name ≠ [] := by
        cases device_name with
        | none => exact absurd (Or.inl rfl) hname
        | some name =>
          refine ⟨name, rfl, fun h => hname (Or.inr ⟨name, rfl, h⟩)⟩
      by_cases hfound : (find_device_by_name b.get_devices b.capture_infos name none).1 = 0
      · rw [ma_capture_start_named_found b c name sample_rate channels callback userdata
          hctx hne hfound, ma_capture_start_device_eq]
        refine ⟨_, _, _, rfl, ?_⟩
        by_cases h1 : b.device_init = MA_SUCCESS
        · by_cases h2 : b.device_start = MA_SUCCESS
          · simp [h1, h2]
          · simp [h1, h2]
        · simp [h1]
      · rw [ma_capture_start_named_missing b c name sample_rate channels callback userdata
          hctx hne hfound]
        refine ⟨_, _, _, rfl, ?_⟩
        simp
  · rw [ma_capture_start_context_failed b c device_name sample_rate channels callback userdata
      hctx]
    refine ⟨_, _, _, rfl, ?_⟩
    simp

/-! ## Claims on teardown, stop and the flags -/

/-- C6: on a live session `ma_capture_free` makes the device uninit exactly
when `device_initialized` is set and the context uninit exactly when
`context_initialized` is set, the device uninit first, each at most once, and
no other backend call; on a fresh session and on NULL it makes no backend
call. -/
theorem ma_capture_free_releases (c : MaCapture) (calloc_ok : Bool) :
    (∃ tr, ma_capture_free (.live c) = some (.freed, tr) ∧
      (BackendCall.ma_device_uninit ∈ tr ↔ c.device_initialized ≠ 0) ∧
      (BackendCall.ma_context_uninit ∈ tr ↔ c.context_initialized ≠ 0) ∧
      tr.Sublist [.ma_device_uninit, .ma_context_uninit]) ∧
    (∃ p, ma_capture_free (ma_capture_new calloc_ok) = some (p, [])) ∧
    ma_capture_free .NULL = some (.NULL, []) := by
  refine ⟨⟨_, rfl, ?_⟩, ?_, rfl⟩
  · by_cases hd : c.device_initialized = 0
    · by_cases hc : c.context_initialized = 0
      · simp [hd, hc]
      · simp [hd, hc]
    · by_cases hc : c.context_initialized = 0
      · simp [hd, hc]
      · simp [hd, hc]
  · cases calloc_ok
    · exact ⟨_, rfl⟩
    · exact ⟨_, rfl⟩

theorem ma_capture_start_nope (c : MaCapture) :
    ma_capture_start backend_no_device (.live c) (some "nope".toList) 48000 2 1 2
      = some (-2, .live { c with callback := 1, userdata := 2, context_initialized := 1 },
          [.ma_context_init, .ma_context_get_devices]) := by
  apply ma_capture_start_named_missing
  · rfl
  · decide
  · have h := find_device_by_name_no_match [] "nope".toList none (by simp)
    show (find_device_by_name MA_SUCCESS [] "nope".toList none).1 ≠ 0
    rw [h]
    decide

/-- C4: `ma_capture_start` is called on an idle session, one that holds no
device (`device_initialized` clear at the call, as on every fresh session).
After it returns -2 the session has `context_initialized` set and
`device_initialized` clear, and `ma_capture_free` makes exactly one backend
call, the context uninit, and no device uninit. -/
theorem ma_capture_start_not_found_holds_context (b : Backend) (c : MaCapture)
    (device_name : Option (List Char)) (sample_rate channels : Int) (callback userdata : Nat)
    (p : MaCapturePtr) (tr : List BackendCall)
    (hidle : c.device_initialized = 0)
    (hret : ma_capture_start b (.live c) device_name sample_rate channels callback userdata
      = some (-2, p, tr)) :
    ∃ c1, p = .live c1 ∧ c1.context_initialized ≠ 0 ∧ c1.device_initialized = 0 ∧
      ma_capture_free p = some (.freed, [.ma_context_uninit]) := by
  obtain ⟨code, c1, tr1, heq, _, hc, hd⟩ :=
    ma_capture_start_flags b c device_name sample_rate channels callback userdata
  rw [heq] at hret
  simp only [Option.some.injEq, Prod.mk.injEq] at hret
  obtain ⟨rfl, rfl, rfl⟩ := hret
  simp at hc hd
  refine ⟨c1, rfl, by simp [hc], by simp [hd, hidle], ?_⟩
  simp [ma_capture_free, hc, hd, hidle]

/-- A fresh session asked for the device "nope" on a backend that lists no
device: -2, then the context uninit alone. -/
theorem ma_capture_start_not_found_holds_context_witness :
    ∃ c1, MaCapturePtr.live
        { fresh_session with callback := 1, userdata := 2, context_initialized := 1 }
        = .live c1 ∧
      c1.context_initialized ≠ 0 ∧ c1.device_initialized = 0 ∧
      ma_capture_free (MaCapturePtr.live
        { fresh_session with callback := 1, userdata := 2, context_initialized := 1 })
        = some (.freed, [.ma_context_uninit]) :=
  ma_capture_start_not_found_holds_context backend_no_device fresh_session
    (some "nope".toList) 48000 2 1 2
    (.live { fresh_session with callback := 1, userdata := 2, context_initialized := 1 })
    [.ma_context_init, .ma_context_get_devices] rfl (ma_capture_start_nope fresh_session)

/-- C5: `ma_capture_start` is called on an idle session, one with both flags
clear at the call (as on every fresh session).  After it returns -1 both flags
are still clear, so no device handle exists and the context is not held, and
`ma_capture_free` makes no backend call; a NULL session returns -1 and
`ma_capture_free` makes no backend call on it either. -/
theorem ma_capture_start_context_failed_holds_nothing (b : Backend) (c : MaCapture)
    (device_name : Option (List Char)) (sample_rate channels : Int) (callback userdata : Nat)
    (p : MaCapturePtr) (tr : List BackendCall)
    (hctx0 : c.context_initialized = 0) (hdev0 : c.device_initialized = 0)
    (hret : ma_capture_start b (.live c) device_name sample_rate channels callback userdata
      = some (-1, p, tr)) :
    (∃ c1, p = .live c1 ∧ c1.context_initialized = 0 ∧ c1.device_initialized = 0 ∧
      ma_capture_free p = some (.freed, [])) ∧
    ma_capture_start b .NULL device_name sample_rate channels callback userdata
      = some (-1, .NULL, []) ∧
    ma_capture_free .NULL = some (.NULL, []) := by
  refine ⟨?_, rfl, rfl⟩
  obtain ⟨code, c1, tr1, heq, _, hc, hd⟩ :=
    ma_capture_start_flags b c device_name sample_rate channels callback userdata
  rw [heq] at hret
  simp only [Option.some.injEq, Prod.mk.injEq] at hret
  obtain ⟨rfl, rfl, rfl⟩ := hret
  simp at hc hd
  refine ⟨c1, rfl, by simp [hc, hctx0], by simp [hd, hdev0], ?_⟩
  simp [ma_capture_free, hc, hd, hctx0, hdev0]

/-- A fresh session on a backend whose context init fails: -1, then no
backend call at teardown. -/
theorem ma_capture_start_context_failed_holds_nothing_witness :
    (∃ c1, MaCapturePtr.live { fresh_session with callback := 1, userdata := 2 } = .live c1 ∧
      c1.context_initialized = 0 ∧ c1.device_initialized = 0 ∧
      ma_capture_free (MaCapturePtr.live { fresh_session with callback := 1, userdata := 2 })
        = some (.freed, [])) ∧
    ma_capture_start { backend_ok with context_init := 1 } .NULL none 48000 2 1 2
      = some (-1, .NULL, []) ∧
    ma_capture_free .NULL = some (.NULL, []) :=
  ma_capture_start_context_failed_holds_nothing { backend_ok with context_init := 1 }
    fresh_session none 48000 2 1 2
    (.live { fresh_session with callback := 1, userdata := 2 }) [.ma_context_init]
    rfl rfl (by decide)

/-- C7 as stated fails after the code -4: on a fresh session the device is
initialized and its start fails, `ma_capture_start` returns -4 with
`device_initialized` set, and `ma_capture_stop` then calls the backend stop. -/
theorem ma_capture_stop_after_start_failed :
    ma_capture_start { backend_ok with device_start := 1 } (ma_capture_new true) none
        48000 2 1 2
      = some (-4, .live started_session,
          [.ma_context_init,
           .ma_device_init
              { pDeviceID := none, format := .ma_format_f32, channels := 2,
                sampleRate := 48000 },
           .ma_device_start]) ∧
    ma_capture_stop (.live started_session)
      = some (.live started_session, [.ma_device_stop]) := by
  refine ⟨by decide, by decide⟩

/-- C7, amended: `ma_capture_stop` never changes the session and calls the
backend stop exactly when `device_initialized` is set.  On a session whose
`device_initialized` is clear (a fresh session in particular) it makes no
backend call, and after a `ma_capture_start` on such a session it makes no
backend call exactly when the start returned -1, -2 or -3, and makes one call,
the device stop, exactly when the start returned 0 or -4. -/
theorem ma_capture_stop_guard (b : Backend) (c : MaCapture)
    (device_name : Option (List Char)) (sample_rate channels : Int) (callback userdata : Nat)
    (hidle : c.device_initialized = 0) :
    (∀ c0 : MaCapture, ∃ tr0, ma_capture_stop (.live c0) = some (.live c0, tr0) ∧
      (tr0 = [] ↔ c0.device_initialized = 0) ∧
      (tr0 = [.ma_device_stop] ↔ c0.device_initialized ≠ 0)) ∧
    ma_capture_stop (.live c) = some (.live c, []) ∧
    ∃ code p tr,
      ma_capture_start b (.live c) device_name sample_rate channels callback userdata
        = some (code, p, tr) ∧
      ∃ tr2, ma_capture_stop p = some (p, tr2) ∧
        (tr2 = [] ↔ code = -1 ∨ code = -2 ∨ code = -3) ∧
        (tr2 = [.ma_device_stop] ↔ code = 0 ∨ code = -4) := by
  refine ⟨?_, by simp [ma_capture_stop, hidle], ?_⟩
  · intro c0
    by_cases h0 : c0.device_initialized = 0
    · exact ⟨[], by simp [ma_capture_stop, h0], by simp [h0], by simp [h0]⟩
    · exact ⟨[.ma_device_stop], by simp [ma_capture_stop, h0], by simp [h0], by simp [h0]⟩
  obtain ⟨code, c1, tr1, heq, hcode, _, hd⟩ :=
    ma_capture_start_flags b c device_name sample_rate channels callback userdata
  refine ⟨code, .live c1, tr1, heq, ?_⟩
  rcases hcode with rfl | rfl | rfl | rfl | rfl
  · refine ⟨[], ?_, by simp, by simp⟩
    simp at hd
    simp [ma_capture_stop, hd, hidle]
  · refine ⟨[], ?_, by simp, by simp⟩
    simp at hd
    simp [ma_capture_stop, hd, hidle]
  · refine ⟨[], ?_, by simp, by simp⟩
    simp at hd
    simp [ma_capture_stop, hd, hidle]
  · refine ⟨[.ma_device_stop], ?_, by simp, by simp⟩
    simp at hd
    simp [ma_capture_stop, hd]
  · refine ⟨[.ma_device_stop], ?_, by simp, by simp⟩
    simp at hd
    simp [ma_capture_stop, hd]

/-- A fresh session and a backend on which everything succeeds. -/
theorem ma_capture_stop_guard_witness :
    (∀ c0 : MaCapture, ∃ tr0, ma_capture_stop (.live c0) = some (.live c0, tr0) ∧
      (tr0 = [] ↔ c0.device_initialized = 0) ∧
      (tr0 = [.ma_device_stop] ↔ c0.device_initialized ≠ 0)) ∧
    ma_capture_stop (.live fresh_session) = some (.live fresh_session, []) ∧
    ∃ code p tr,
      ma_capture_start backend_ok (.live fresh_session) none 48000 2 1 2
        = some (code, p, tr) ∧
      ∃ tr2, ma_capture_stop p = some (p, tr2) ∧
        (tr2 = [] ↔ code = -1 ∨ code = -2 ∨ code = -3) ∧
        (tr2 = [.ma_device_stop] ↔ code = 0 ∨ code = -4) :=
  ma_capture_stop_guard backend_ok fresh_session none 48000 2 1 2 rfl

/-- C8 as stated fails: after `ma_capture_free` on a started session the
object is freed storage, the flags were not cleared, and a second
`ma_capture_free` on the same pointer has no defined behaviour. -/
theorem ma_capture_free_twice_undefined :
    ma_capture_free (.live started_session)
      = some (.freed, [.ma_device_uninit, .ma_context_uninit]) ∧
    (ma_capture_free (.live started_session)).bind (fun r => ma_capture_free r.1) = none := by
  refine ⟨by decide, by decide⟩

/-- C8, amended: one `ma_capture_free` on a live session makes each backend
release at most once and leaves the object freed; `ma_capture_free` on freed
storage is undefined; only on a NULL session can `ma_capture_free` be repeated,
and it makes no backend call there. -/
theorem ma_capture_free_once (c : MaCapture) :
    (∃ tr, ma_capture_free (.live c) = some (.freed, tr) ∧ tr.Nodup ∧
      tr.Sublist [.ma_device_uninit, .ma_context_uninit]) ∧
    ma_capture_free .freed = none ∧
    (ma_capture_free .NULL).bind (fun r => ma_capture_free r.1) = some (.NULL, []) := by
  refine ⟨⟨_, rfl, ?_⟩, rfl, rfl⟩
  by_cases hd : c.device_initialized = 0
  · by_cases hc : c.context_initialized = 0
    · simp [hd, hc]
    · simp [hd, hc]
  · by_cases hc : c.context_initialized = 0
    · simp [hd, hc]
    · simp [hd, hc]

/-! ## The lifecycle invariant -/

theorem step_live (c : MaCapture) (k : Call) :
    ∃ c1 t, step (.live c) k = some (.live c1, t) ∧
      (c.context_initialized ≠ 0 → c1.context_initialized ≠ 0) ∧
      (c.device_initialized ≠ 0 → c1.device_initialized ≠ 0) ∧
      ((c.device_initialized ≠ 0 → c.context_initialized ≠ 0) →
        (c1.device_initialized ≠ 0 → c1.context_initialized ≠ 0)) := by
  cases k with
  | start b device_name sample_rate channels callback userdata =>
    obtain ⟨code, c1, tr1, heq, hcode, hc, hd⟩ :=
      ma_capture_start_flags b c device_name sample_rate channels callback userdata
    refine ⟨c1, tr1, by simp [step, heq], ?_⟩
    rcases hcode with rfl | rfl | rfl | rfl | rfl <;> simp at hc hd <;> simp [hc, hd]
  | stop =>
    by_cases hd : c.device_initialized = 0
    · exact ⟨c, [], by simp [step, ma_capture_stop, hd], id, id, id⟩
    · exact ⟨c, [.ma_device_stop], by simp [step, ma_capture_stop, hd], id, id, id⟩

theorem step_NULL (k : Call) : step .NULL k = some (.NULL, []) := by
  cases k <;> rfl

theorem run_NULL (calls : List Call) : run .NULL calls = some (.NULL, []) := by
  induction calls with
  | nil => rfl
  | cons k rest ih => simp [run, step_NULL, ih]

theorem run_live (calls : List Call) :
    ∀ c : MaCapture, ∃ c1 t, run (.live c) calls = some (.live c1, t) ∧
      (c.context_initialized ≠ 0 → c1.context_initialized ≠ 0) ∧
      (c.device_initialized ≠ 0 → c1.device_initialized ≠ 0) ∧
      ((c.device_initialized ≠ 0 → c.context_initialized ≠ 0) →
        (c1.device_initialized ≠ 0 → c1.context_initialized ≠ 0)) := by
  induction calls with
  | nil => exact fun c => ⟨c, [], rfl, id, id, id⟩
  | cons k rest ih =>
    intro c
    obtain ⟨c1, t1, hs, hc1, hd1, hi1⟩ := step_live c k
    obtain ⟨c2, t2, hr, hc2, hd2, hi2⟩ := ih c1
    exact ⟨c2, t1 ++ t2, by simp [run, hs, hr], fun h => hc2 (hc1 h), fun h => hd2 (hd1 h),
      fun h => hi2 (hi1 h)⟩

theorem run_append (pre post : List Call) :
    ∀ (p p1 : MaCapturePtr) (t1 : List BackendCall), run p pre = some (p1, t1) →
      run p (pre ++ post) = (run p1 post).map (fun r => (r.1, t1 ++ r.2)) := by
  induction pre with
  | nil =>
    intro p p1 t1 h
    simp only [run, Option.some.injEq, Prod.mk.injEq] at h
    obtain ⟨rfl, rfl⟩ := h
    cases hr : run p post with
    | none => simp [hr]
    | some r => simp [hr]
  | cons k rest ih =>
    intro p p1 t1 h
    rw [List.cons_append]
    simp only [run] at h ⊢
    cases hs : step p k with
    | none => simp [hs] at h
    | some r =>
      obtain ⟨q, tq⟩ := r
      simp only [hs] at h ⊢
      cases hr : run q rest with
      | none => simp [hr] at h
      | some r2 =>
        obtain ⟨q2, tq2⟩ := r2
        simp only [hr, Option.some.injEq, Prod.mk.injEq] at h
        obtain ⟨rfl, rfl⟩ := h
        rw [ih q q2 tq2 hr]
        cases hp : run q2 post with
        | none => simp
        | some r3 => simp [List.append_assoc]

/-- C10: from a session of `ma_capture_new`, any sequence `pre` of
`ma_capture_start` and `ma_capture_stop` calls, with any arguments and backend
answers, runs to the end; in the session it reaches, `device_initialized` set
implies `context_initialized` set; and after any further sequence `post` a flag
that was set is still set. -/
theorem lifecycle_invariant (calloc_ok : Bool) (pre post : List Call) :
    ∃ p1 t1 p2 t2,
      run (ma_capture_new calloc_ok) pre = some (p1, t1) ∧
      run (ma_capture_new calloc_ok) (pre ++ post) = some (p2, t1 ++ t2) ∧
      run p1 post = some (p2, t2) ∧
      (∀ c1, p1 = .live c1 → c1.device_initialized ≠ 0 → c1.context_initialized ≠ 0) ∧
      (∀ c1, p1 = .live c1 → ∃ c2, p2 = .live c2 ∧
        (c1.context_initialized ≠ 0 → c2.context_initialized ≠ 0) ∧
        (c1.device_initialized ≠ 0 → c2.device_initialized ≠ 0)) := by
  cases calloc_ok with
  | false =>
    refine ⟨.NULL, [], .NULL, [], run_NULL pre, ?_, run_NULL post, ?_, ?_⟩
    · simpa using run_NULL (pre ++ post)
    · intro c1 h
      cases h
    · intro c1 h
      cases h
  | true =>
    obtain ⟨c1, t1, h1, _, _, hinv⟩ := run_live pre fresh_session
    obtain ⟨c2, t2, h2, hc, hd, _⟩ := run_live post c1
    have hnew : ma_capture_new true = .live fresh_session := rfl
    refine ⟨.live c1, t1, .live c2, t2, by rw [hnew, h1], ?_, h2, ?_, ?_⟩
    · rw [hnew, run_append pre post _ _ _ h1, h2]
      rfl
    · intro c hc1
      cases hc1
      exact hinv (by simp [fresh_session])
    · intro c hc1
      cases hc1
      exact ⟨c2, rfl, hc, hd⟩

/-! ## The monitor source scan -/

theorem monitor_test_iff (name : List Char) :
    monitor_test name ↔
      ("monitor".toList <:+: c_str name ∨ "Monitor".toList <:+: c_str name) := by
  have h1 : c_str "monitor".toList = "monitor".toList := by decide
  have h2 : c_str "Monitor".toList = "Monitor".toList := by decide
  unfold monitor_test
  rw [strstr_ne_none_iff, strstr_ne_none_iff, h1, h2]

theorem c_str_ne_NUL (p : List Char) : ∀ a ∈ c_str p, (a != NUL) = true := by
  intro a ha
  unfold c_str at ha
  exact List.mem_takeWhile_imp (p := fun c => c != NUL) ha

/-- The buffer after `strncpy(out_name, name, n)` and `out_name[n] = NUL`. -/
theorem strncpy_set_eq (out_name name : List Char) (n : Nat) (hn : n < out_name.length) :
    (strncpy out_name name n).set n NUL
      = (c_str name).take n ++
          (List.replicate (n - ((c_str name).take n).length) NUL ++
            NUL :: out_name.drop (n + 1)) := by
  have hlen : ((c_str name).take n ++
      List.replicate (n - ((c_str name).take n).length) NUL).length = n := by
    have : ((c_str name).take n).length ≤ n := by
      rw [List.length_take]
      exact Nat.min_le_left _ _
    rw [List.length_append, List.length_replicate]
    omega
  unfold strncpy
  rw [List.set_append_right n NUL (by rw [hlen]), hlen, Nat.sub_self,
    List.drop_eq_getElem_cons hn, List.set_cons_zero, List.append_assoc]

theorem c_str_strncpy_set (out_name name : List Char) (n : Nat) (hn : n < out_name.length) :
    c_str ((strncpy out_name name n).set n NUL) = (c_str name).take n := by
  rw [strncpy_set_eq out_name name n hn]
  unfold c_str
  rw [List.takeWhile_append_of_pos]
  · have hnul : (NUL != NUL) = false := by decide
    cases hpad : n - (List.take n (List.takeWhile (fun c => c != NUL) name)).length with
    | zero => simp [List.takeWhile_cons, hnul]
    | succ m => simp [List.replicate_succ, List.takeWhile_cons, hnul]
  · intro a ha
    exact c_str_ne_NUL name a (List.mem_of_mem_take ha)

theorem length_strncpy_set (out_name name : List Char) (n : Nat) (hn : n < out_name.length) :
    ((strncpy out_name name n).set n NUL).length = out_name.length := by
  have h1 : ((c_str name).take n).length ≤ n := by
    rw [List.length_take]
    exact Nat.min_le_left _ _
  rw [List.length_set]
  unfold strncpy
  simp only [List.length_append, List.length_replicate, List.length_drop]
  omega

theorem drop_strncpy_set (out_name name : List Char) (n : Nat) (hn : n < out_name.length) :
    ((strncpy out_name name n).set n NUL).drop (n + 1) = out_name.drop (n + 1) := by
  have h1 : ((c_str name).take n).length ≤ n := by
    rw [List.length_take]
    exact Nat.min_le_left _ _
  have hlen : ((c_str name).take n ++
      (List.replicate (n - ((c_str name).take n).length) NUL ++ [NUL])).length = n + 1 := by
    simp only [List.length_append, List.length_replicate, List.length_singleton]
    omega
  rw [strncpy_set_eq out_name name n hn]
  have hsplit : (c_str name).take n ++
      (List.replicate (n - ((c_str name).take n).length) NUL ++
        NUL :: out_name.drop (n + 1))
      = ((c_str name).take n ++
          (List.replicate (n - ((c_str name).take n).length) NUL ++ [NUL]))
        ++ out_name.drop (n + 1) := by
    simp [List.append_assoc]
  rw [hsplit, List.drop_append_of_le_length (Nat.le_of_eq hlen.symm),
    List.drop_of_length_le (Nat.le_of_eq hlen), List.nil_append]

/-- The terminator: the character that follows the copied string is a NUL
stored in the buffer. -/
theorem terminator_strncpy_set (out_name name : List Char) (n : Nat)
    (hn : n < out_name.length) :
    ((strncpy out_name name n).set n NUL)[((c_str name).take n).length]? = some NUL := by
  rw [strncpy_set_eq out_name name n hn, List.getElem?_append_right (Nat.le_refl _),
    Nat.sub_self]
  cases n - ((c_str name).take n).length with
  | zero => simp
  | succ m => simp [List.replicate_succ]

theorem ma_find_monitor_source_loop_none (capture_infos : List ma_device_info)
    (out_name : List Char) (max_len : Int) :
    ∀ (n i : Nat), capture_infos.length - i = n →
      (∀ j (hj : j < capture_infos.length), i ≤ j → ¬ monitor_test (capture_infos[j]).name) →
      ma_find_monitor_source_loop capture_infos out_name max_len i = (-1, out_name) := by
  intro n
  induction n with
  | zero =>
    intro i hn _
    rw [ma_find_monitor_source_loop]
    have hi : ¬ i < capture_infos.length := by omega
    simp [hi]
  | succ n ih =>
    intro i hn hall
    rw [ma_find_monitor_source_loop]
    have hi : i < capture_infos.length := by omega
    have hno : ¬ (strstr (capture_infos[i]).name "monitor".toList ≠ none ∨
        strstr (capture_infos[i]).name "Monitor".toList ≠ none) :=
      hall i hi (Nat.le_refl i)
    simp only [hi, dite_true]
    rw [if_neg hno]
    exact ih (i + 1) (by omega) (fun j hj hij => hall j hj (by omega))

theorem ma_find_monitor_source_loop_first (capture_infos : List ma_device_info)
    (out_name : List Char) (max_len : Int)
    (k : Nat) (hk : k < capture_infos.length) (hit : monitor_test (capture_infos[k]).name) :
    ∀ (n i : Nat), k - i = n → i ≤ k →
      (∀ j (hj : j < capture_infos.length), i ≤ j → j < k →
        ¬ monitor_test (capture_infos[j]).name) →
      ma_find_monitor_source_loop capture_infos out_name max_len i
        = (0, (strncpy out_name (capture_infos[k]).name (to_size_t (max_len - 1))).set
            (max_len - 1).toNat NUL) := by
  intro n
  induction n with
  | zero =>
    intro i hn hik _
    have hi : i = k := by omega
    subst hi
    rw [ma_find_monitor_source_loop]
    have hyes : strstr (capture_infos[i]).name "monitor".toList ≠ none ∨
        strstr (capture_infos[i]).name "Monitor".toList ≠ none := hit
    simp only [hk, dite_true]
    exact if_pos hyes
  | succ n ih =>
    intro i hn hik hall
    have hi : i < capture_infos.length := by omega
    rw [ma_find_monitor_source_loop]
    have hno : ¬ (strstr (capture_infos[i]).name "monitor".toList ≠ none ∨
        strstr (capture_infos[i]).name "Monitor".toList ≠ none) :=
      hall i hi (Nat.le_refl i) (by omega)
    simp only [hi, dite_true]
    rw [if_neg hno]
    exact ih (i + 1) (by omega) (by omega) (fun j hj hij hjk => hall j hj (by omega) hjk)

theorem exists_first_monitor (capture_infos : List ma_device_info)
    (hex : ∃ d ∈ capture_infos, monitor_test d.name) :
    ∃ (k : Nat) (hk : k < capture_infos.length),
      monitor_test (capture_infos[k]).name ∧
      ∀ j (hj : j < capture_infos.length), j < k → ¬ monitor_test (capture_infos[j]).name := by
  have hex2 : ∃ k, ∃ hk : k < capture_infos.length, monitor_test (capture_infos[k]).name := by
    obtain ⟨d, hd, hin⟩ := hex
    obtain ⟨k, hk, rfl⟩ := List.mem_iff_getElem.mp hd
    exact ⟨k, hk, hin⟩
  refine ⟨Nat.find hex2, (Nat.find_spec hex2).1, (Nat.find_spec hex2).2, ?_⟩
  intro j hj hlt hin
  exact Nat.find_min hex2 hlt ⟨hj, hin⟩

theorem take_min_length (l : List Char) (n : Nat) :
    l.take (min l.length n) = l.take n := by
  rcases Nat.le_total l.length n with h | h
  · rw [Nat.min_eq_left h, List.take_of_length_le h, List.take_of_length_le (Nat.le_refl _)]
  · rw [Nat.min_eq_right h]

theorem to_size_t_of_int (x : Int) (h0 : 0 ≤ x) (h1 : x < 2 ^ 31) : to_size_t x = x.toNat := by
  unfold to_size_t
  rw [Int.emod_eq_of_lt h0 (by omega)]

/-- C9: for `1 ≤ max_len` (an `int`) and a buffer of at least `max_len`
characters, `ma_find_monitor_source` returns 0 exactly when context init and
enumeration succeed and some device name contains "monitor" or "Monitor"; then
the string in `out_name` is the name of the first such device cut to its first
`min(length, max_len - 1)` characters, its terminating NUL is stored within the
first `max_len` characters, and the buffer past them is untouched; otherwise
it returns -1 and `out_name` is unchanged. -/
theorem ma_find_monitor_source_spec (context_init get_devices : ma_result)
    (capture_infos : List ma_device_info) (out_name : List Char) (max_len : Int)
    (hmax : 1 ≤ max_len) (hint : max_len < 2 ^ 31) (hbuf : max_len ≤ out_name.length) :
    ((ma_find_monitor_source context_init get_devices capture_infos out_name max_len).1 = 0 ↔
      (context_init = MA_SUCCESS ∧ get_devices = MA_SUCCESS ∧
        ∃ d ∈ capture_infos,
          "monitor".toList <:+: c_str d.name ∨ "Monitor".toList <:+: c_str d.name)) ∧
    ((ma_find_monitor_source context_init get_devices capture_infos out_name max_len).1 = 0 →
      ∃ (k : Nat) (hk : k < capture_infos.length),
        ("monitor".toList <:+: c_str (capture_infos[k]).name ∨
          "Monitor".toList <:+: c_str (capture_infos[k]).name) ∧
        (∀ j (hj : j < capture_infos.length), j < k →
          ¬ ("monitor".toList <:+: c_str (capture_infos[j]).name ∨
            "Monitor".toList <:+: c_str (capture_infos[j]).name)) ∧
        c_str (ma_find_monitor_source context_init get_devices capture_infos out_name
            max_len).2.1
          = (c_str (capture_infos[k]).name).take
              (min (c_str (capture_infos[k]).name).length (max_len - 1).toNat) ∧
        (ma_find_monitor_source context_init get_devices capture_infos out_name
            max_len).2.1[(c_str (ma_find_monitor_source context_init get_devices
              capture_infos out_name max_len).2.1).length]? = some NUL ∧
        ((c_str (ma_find_monitor_source context_init get_devices capture_infos out_name
            max_len).2.1).length : Int) < max_len ∧
        (ma_find_monitor_source context_init get_devices capture_infos out_name
            max_len).2.1.length = out_name.length ∧
        (ma_find_monitor_source context_init get_devices capture_infos out_name
            max_len).2.1.drop max_len.toNat = out_name.drop max_len.toNat) ∧
    ((ma_find_monitor_source context_init get_devices capture_infos out_name max_len).1 ≠ 0 →
      (ma_find_monitor_source context_init get_devices capture_infos out_name max_len).1 = -1 ∧
      (ma_find_monitor_source context_init get_devices capture_infos out_name max_len).2.1
        = out_name) := by
  by_cases hctx : context_init = MA_SUCCESS
  · by_cases henum : get_devices = MA_SUCCESS
    · subst hctx henum
      by_cases hex : ∃ d ∈ capture_infos, monitor_test d.name
      · obtain ⟨k, hk, hit, hfirst⟩ := exists_first_monitor capture_infos hex
        have hl := ma_find_monitor_source_loop_first capture_infos out_name max_len k hk hit
          (k - 0) 0 rfl (Nat.zero_le k) (fun j hj _ hjk => hfirst j hj hjk)
        have hsz : to_size_t (max_len - 1) = (max_len - 1).toNat :=
          to_size_t_of_int (max_len - 1) (by omega) (by omega)
        have hn : (max_len - 1).toNat < out_name.length := by omega
        have hm : max_len.toNat = (max_len - 1).toNat + 1 := by omega
        have hres : ma_find_monitor_source MA_SUCCESS MA_SUCCESS capture_infos out_name max_len
            = (0, (strncpy out_name (capture_infos[k]).name (max_len - 1).toNat).set
                (max_len - 1).toNat NUL,
              [.ma_context_init, .ma_context_get_devices, .ma_context_uninit]) := by
          simp [ma_find_monitor_source, hl, hsz]
        have hex2 : ∃ d ∈ capture_infos,
            "monitor".toList <:+: c_str d.name ∨ "Monitor".toList <:+: c_str d.name := by
          obtain ⟨d, hd, hm⟩ := hex
          exact ⟨d, hd, (monitor_test_iff d.name).mp hm⟩
        rw [hres]
        refine ⟨⟨fun _ => ⟨rfl, rfl, hex2⟩, fun _ => rfl⟩,
          fun _ => ⟨k, hk, (monitor_test_iff _).mp hit, ?_, ?_, ?_, ?_, ?_, ?_⟩, by simp⟩
        · intro j hj hjk hin
          exact hfirst j hj hjk ((monitor_test_iff _).mpr hin)
        · show c_str ((strncpy out_name (capture_infos[k]).name (max_len - 1).toNat).set
              (max_len - 1).toNat NUL) = _
          rw [c_str_strncpy_set out_name _ _ hn, take_min_length]
        · show ((strncpy out_name (capture_infos[k]).name (max_len - 1).toNat).set
              (max_len - 1).toNat NUL)[(c_str ((strncpy out_name (capture_infos[k]).name
                (max_len - 1).toNat).set (max_len - 1).toNat NUL)).length]? = some NUL
          rw [c_str_strncpy_set out_name _ _ hn]
          exact terminator_strncpy_set out_name _ _ hn
        · show ((c_str ((strncpy out_name (capture_infos[k]).name (max_len - 1).toNat).set
              (max_len - 1).toNat NUL)).length : Int) < max_len
          rw [c_str_strncpy_set out_name _ _ hn, List.length_take]
          have : min (max_len - 1).toNat (c_str (capture_infos[k]).name).length
              ≤ (max_len - 1).toNat := Nat.min_le_left _ _
          omega
        · exact length_strncpy_set out_name _ _ hn
        · show ((strncpy out_name (capture_infos[k]).name (max_len - 1).toNat).set
              (max_len - 1).toNat NUL).drop max_len.toNat = _
          rw [hm]
          exact drop_strncpy_set out_name _ _ hn
      · have hl := ma_find_monitor_source_loop_none capture_infos out_name max_len
          (capture_infos.length - 0) 0 rfl
          (fun j hj _ hin => hex ⟨capture_infos[j], List.getElem_mem _, hin⟩)
        have hres : ma_find_monitor_source MA_SUCCESS MA_SUCCESS capture_infos out_name max_len
            = (-1, out_name,
              [.ma_context_init, .ma_context_get_devices, .ma_context_uninit]) := by
          simp [ma_find_monitor_source, hl]
        have hex2 : ¬ ∃ d ∈ capture_infos,
            "monitor".toList <:+: c_str d.name ∨ "Monitor".toList <:+: c_str d.name := by
          rintro ⟨d, hd, hm⟩
          exact hex ⟨d, hd, (monitor_test_iff d.name).mpr hm⟩
        rw [hres]
        refine ⟨?_, by simp, by simp⟩
        constructor
        · intro h
          simp at h
        · intro h
          exact absurd h.2.2 hex2
    · have hres : ma_find_monitor_source context_init get_devices capture_infos out_name max_len
          = (-1, out_name,
            [.ma_context_init, .ma_context_get_devices, .ma_context_uninit]) := by
        simp [ma_find_monitor_source, hctx, henum]
      rw [hres]
      refine ⟨by simp [henum], by simp, by simp⟩
  · have hres : ma_find_monitor_source context_init get_devices capture_infos out_name max_len
        = (-1, out_name, [.ma_context_init]) := by
      simp [ma_find_monitor_source, hctx]
    rw [hres]
    refine ⟨by simp [hctx], by simp, by simp⟩

/-- A buffer of 10 characters with `max_len` 8 against a microphone and a
monitor source. -/
theorem ma_find_monitor_source_spec_witness :
    ((ma_find_monitor_source MA_SUCCESS MA_SUCCESS mic_and_monitor
        (List.replicate 10 'x') 8).1 = 0 ↔
      (MA_SUCCESS = MA_SUCCESS ∧ MA_SUCCESS = MA_SUCCESS ∧
        ∃ d ∈ mic_and_monitor,
          "monitor".toList <:+: c_str d.name ∨ "Monitor".toList <:+: c_str d.name)) ∧
    ((ma_find_monitor_source MA_SUCCESS MA_SUCCESS mic_and_monitor
        (List.replicate 10 'x') 8).1 = 0 →
      ∃ (k : Nat) (hk : k < mic_and_monitor.length),
        ("monitor".toList <:+: c_str (mic_and_monitor[k]).name ∨
          "Monitor".toList <:+: c_str (mic_and_monitor[k]).name) ∧
        (∀ j (hj : j < mic_and_monitor.length), j < k →
          ¬ ("monitor".toList <:+: c_str (mic_and_monitor[j]).name ∨
            "Monitor".toList <:+: c_str (mic_and_monitor[j]).name)) ∧
        c_str (ma_find_monitor_source MA_SUCCESS MA_SUCCESS mic_and_monitor
            (List.replicate 10 'x') 8).2.1
          = (c_str (mic_and_monitor[k]).name).take
              (min (c_str (mic_and_monitor[k]).name).length ((8 : Int) - 1).toNat) ∧
        (ma_find_monitor_source MA_SUCCESS MA_SUCCESS mic_and_monitor
            (List.replicate 10 'x') 8).2.1[(c_str (ma_find_monitor_source MA_SUCCESS MA_SUCCESS
              mic_and_monitor (List.replicate 10 'x') 8).2.1).length]? = some NUL ∧
        ((c_str (ma_find_monitor_source MA_SUCCESS MA_SUCCESS mic_and_monitor
            (List.replicate 10 'x') 8).2.1).length : Int) < 8 ∧
        (ma_find_monitor_source MA_SUCCESS MA_SUCCESS mic_and_monitor
            (List.replicate 10 'x') 8).2.1.length = (List.replicate 10 'x').length ∧
        (ma_find_monitor_source MA_SUCCESS MA_SUCCESS mic_and_monitor
            (List.replicate 10 'x') 8).2.1.drop (8 : Int).toNat = (List.replicate 10 'x').drop (8 : Int).toNat) ∧
    ((ma_find_monitor_source MA_SUCCESS MA_SUCCESS mic_and_monitor
        (List.replicate 10 'x') 8).1 ≠ 0 →
      (ma_find_monitor_source MA_SUCCESS MA_SUCCESS mic_and_monitor
        (List.replicate 10 'x') 8).1 = -1 ∧
      (ma_find_monitor_source MA_SUCCESS MA_SUCCESS mic_and_monitor
        (List.replicate 10 'x') 8).2.1
        = (List.replicate 10 'x')) :=
  ma_find_monitor_source_spec MA_SUCCESS MA_SUCCESS mic_and_monitor (List.replicate 10 'x') 8
    (by decide) (by decide) (by decide)

end MaHelper
